import Mathlib

/-
Verification of the Mission Parameter Resolver & Analytics Engine
(src/main.py, function update_orbit and its helpers).

Numbers that the Python code handles as int/float are modelled as exact
rationals (every constant in the source, 1361, 0.35, 51.6, ..., is an
exact decimal, so all arithmetic in the claims is exact).  Optional form
inputs (Dash number fields, which deliver None when empty) are modelled
as Option Rat.  The Python idiom `x or d` coalesces both None and 0 to
the default d; `pyOr` reproduces that.

Trajectory sampling times are represented by their coefficient of pi:
the source computes np.linspace(0, 2*np.pi, 500); here the list
`linspace 0 2 n` holds the coefficients c with t = c * pi, which keeps
every value rational.  The external two-body propagator (poliastro) is
out of scope per the spec and is abstracted as a function argument.
-/

/-- Python `x or d` on an optional number: None and 0 are falsy and give d. -/
def pyOr (x : Option ℚ) (d : ℚ) : ℚ :=
  match x with
  | none => d
  | some v => if v = 0 then d else v

/-- Resolved altitude (km) and inclination (deg), lines 130-141 of src/main.py. -/
structure ResolvedOrbit where
  altKm : ℚ
  inclDeg : ℚ
deriving DecidableEq, Repr

/-- Orbit-type dispatch of update_orbit, src/main.py lines 130-141:
LEO / SSO / POLAR take fixed pairs, every other string falls to the
else branch (the CUSTOM case) which applies the Python or-defaults. -/
def resolveOrbit (orbit_type : String) (altitude inclination : Option ℚ) :
    ResolvedOrbit :=
  if orbit_type = "LEO" then ⟨500, 51.6⟩
  else if orbit_type = "SSO" then ⟨600, 97.5⟩
  else if orbit_type = "POLAR" then ⟨700, 90⟩
  else ⟨pyOr altitude 500, pyOr inclination 90⟩

/-- Classical orbital elements as assembled in src/main.py lines 144-150.
Angles in degrees, lengths in km. -/
structure ClassicalElements where
  a : ℚ
  ecc : ℚ
  inc : ℚ
  raan : ℚ
  argp : ℚ
  nu : ℚ
deriving DecidableEq, Repr

/-- Lines 144-150: a = Earth.R + alt, ecc = 0, raan = 0, argp = 0, nu = 0.
The body radius Earth.R comes from the external poliastro collaborator and
is passed in as bodyR. -/
def makeElements (bodyR : ℚ) (o : ResolvedOrbit) : ClassicalElements :=
  { a := bodyR + o.altKm
    ecc := 0
    inc := o.inclDeg
    raan := 0
    argp := 0
    nu := 0 }

/-- np.linspace a b n with the default endpoint=True: n evenly spaced
values from a to b inclusive, step (b - a)/(n - 1); [a] for n = 1,
[] for n = 0. -/
def linspace (a b : ℚ) (n : ℕ) : List ℚ :=
  if n = 0 then []
  else if n = 1 then [a]
  else (List.range n).map (fun (k : ℕ) => a + (b - a) * (k : ℚ) / ((n : ℚ) - 1))

/-- The sampling loop of src/main.py lines 156-164: one position per value
of np.linspace(0, 2*pi, num_points), each obtained by propagating the
orbit by that parameter.  Times are in units of pi; the propagator
(poliastro Orbit.propagate) is the abstract argument `propagate`. -/
def samplePositions {α : Type} (propagate : ClassicalElements → ℚ → α)
    (orbit : ClassicalElements) (num_points : ℕ) : List α :=
  (linspace 0 2 num_points).map (propagate orbit)

/-- src/main.py lines 94-102: per-orbit data rate by sensor type. -/
def estimate_data_rate (sensor_type : String) (resolution : ℚ) : ℚ :=
  if sensor_type = "MSI" then resolution * 0.1
  else if sensor_type = "HSI" then resolution * 0.5
  else if sensor_type = "SAR" then resolution * 1.0
  else 0

/-- src/main.py lines 105-107: storage = (rate * downlink) * duration. -/
def calculate_onboard_storage (data_rate downlink_time mission_duration : ℚ) : ℚ :=
  data_rate * downlink_time * mission_duration

/-- Round to the nearest integer, ties to even, as Python round does. -/
def roundHalfEven (x : ℚ) : ℤ :=
  let f := Int.floor x
  let r := x - f
  if r < 1/2 then f
  else if 1/2 < r then f + 1
  else if f % 2 = 0 then f else f + 1

/-- Python round(x, 1). -/
def round1 (x : ℚ) : ℚ := (roundHalfEven (x * 10) : ℚ) / 10

/-- The outputs of one recomputation that the claims are about
(src/main.py lines 129-225; the Plotly figure itself is out of scope,
its sampling schedule is kept as sampleTimes in units of pi). -/
structure MissionResult where
  elements : ClassicalElements
  sampleTimes : List ℚ
  revisitDays : ℚ
  generatedPowerW : ℚ
  consumedPowerW : ℚ
  powerSufficient : Bool
  dataRateMbPerOrbit : ℚ
  requiredStorageMb : ℚ
deriving DecidableEq, Repr

/-- The update_orbit callback, src/main.py lines 129-225, with the body
radius of the external collaborator passed as bodyR.  Constants inline as
in the source: circumference 40075, swath fixed at 100, 14 orbits/day,
solar constant 1361, eclipse fraction 0.35, downlink 12 h/day, mission
365 days. -/
def update_orbit (bodyR : ℚ) (orbit_type : String) (altitude inclination : Option ℚ)
    (sensor_type : String) (sensor_resolution : ℚ)
    (solar_area solar_eff power_consumption : Option ℚ) : MissionResult :=
  { elements := makeElements bodyR (resolveOrbit orbit_type altitude inclination)
    sampleTimes := linspace 0 2 500
    revisitDays := round1 (40075 / (100 * 14))
    generatedPowerW :=
      1361 * pyOr solar_area 1.5 * (pyOr solar_eff 28 / 100) * (1 - 0.35)
    consumedPowerW := pyOr power_consumption 50
    powerSufficient :=
      decide (pyOr power_consumption 50 ≤
        1361 * pyOr solar_area 1.5 * (pyOr solar_eff 28 / 100) * (1 - 0.35))
    dataRateMbPerOrbit := estimate_data_rate sensor_type sensor_resolution
    requiredStorageMb :=
      calculate_onboard_storage
        (estimate_data_rate sensor_type sensor_resolution) 12 365 }

/-- C1 counterexample: the claim says a non-policy orbitType uses the
user-supplied altitude and inclination, falling back only when they are
absent; but for CUSTOM with supplied altitude 0 and inclination 0 the
code substitutes the defaults 500 and 90 instead of using the supplied
zeros. -/
theorem C1_resolver_counterexample :
    resolveOrbit "CUSTOM" (some 0) (some 0) = ⟨500, 90⟩ ∧
    resolveOrbit "CUSTOM" (some 0) (some 0) ≠ ⟨0, 0⟩ := by
  constructor <;> decide

/-- C1 (amended): LEO gives (500, 51.6), SSO (600, 97.5), POLAR (700, 90),
each ignoring user inputs; any other orbitType uses the user altitude and
inclination when supplied and nonzero, falling back to 500 km and 90 deg
when they are absent or zero. -/
theorem C1_resolver (altitude inclination : Option ℚ) :
    resolveOrbit "LEO" altitude inclination = ⟨500, 51.6⟩ ∧
    resolveOrbit "SSO" altitude inclination = ⟨600, 97.5⟩ ∧
    resolveOrbit "POLAR" altitude inclination = ⟨700, 90⟩ ∧
    ∀ ot : String, ot ≠ "LEO" → ot ≠ "SSO" → ot ≠ "POLAR" →
      resolveOrbit ot altitude inclination =
        ⟨(match altitude with
           | none => 500
           | some v => if v = 0 then 500 else v),
         (match inclination with
           | none => 90
           | some v => if v = 0 then 90 else v)⟩ := by
  refine ⟨by simp [resolveOrbit], by simp [resolveOrbit], by simp [resolveOrbit], ?_⟩
  intro ot h1 h2 h3
  simp only [resolveOrbit, if_neg h1, if_neg h2, if_neg h3]
  cases altitude <;> cases inclination <;> rfl

/-- C1 witness at a concrete non-policy orbit type. -/
theorem C1_resolver_witness :
    resolveOrbit "CUSTOM" (some 3) none = ⟨3, 90⟩ := by
  have h := (C1_resolver (some 3) none).2.2.2 "CUSTOM"
    (by decide) (by decide) (by decide)
  simpa using h

/-- C2: for every combination of inputs, with null/falsy values replaced
by the defaults 1.5 m2, 28 percent, 50 W, the generated power is
1361 * area * (eff/100) * (1 - 0.35) and the budget is reported
sufficient exactly when generated >= consumed, equality included. -/
theorem C2_power_estimator (bodyR : ℚ) (ot st : String)
    (alt inc : Option ℚ) (res : ℚ) (sa se pc : Option ℚ) :
    (update_orbit bodyR ot alt inc st res sa se pc).generatedPowerW =
      1361 *
        (match sa with | none => 1.5 | some v => if v = 0 then 1.5 else v) *
        ((match se with | none => 28 | some v => if v = 0 then 28 else v) / 100) *
        (1 - 0.35) ∧
    (update_orbit bodyR ot alt inc st res sa se pc).consumedPowerW =
      (match pc with | none => 50 | some v => if v = 0 then 50 else v) ∧
    ((update_orbit bodyR ot alt inc st res sa se pc).powerSufficient = true ↔
      (update_orbit bodyR ot alt inc st res sa se pc).generatedPowerW ≥
        (update_orbit bodyR ot alt inc st res sa se pc).consumedPowerW) := by
  refine ⟨?_, ?_, ?_⟩
  · cases sa <;> cases se <;> rfl
  · cases pc <;> rfl
  · simp [update_orbit, ge_iff_le]

/-- C3: the data-rate table: resolution * 0.1 for MSI, * 0.5 for HSI,
* 1.0 for SAR, 0 for anything else, total on all inputs; in particular
the UNKNOWN sensor at resolution 10 gives rate 0 and storage 0. -/
theorem C3_data_rate (resolution : ℚ) :
    estimate_data_rate "MSI" resolution = resolution * 0.1 ∧
    estimate_data_rate "HSI" resolution = resolution * 0.5 ∧
    estimate_data_rate "SAR" resolution = resolution * 1.0 ∧
    (∀ st : String, st ≠ "MSI" → st ≠ "HSI" → st ≠ "SAR" →
      estimate_data_rate st resolution = 0) ∧
    estimate_data_rate "UNKNOWN" 10 = 0 ∧
    calculate_onboard_storage (estimate_data_rate "UNKNOWN" 10) 12 365 = 0 := by
  refine ⟨rfl, ?_, ?_, ?_, ?_, ?_⟩
  · simp [estimate_data_rate]
  · simp [estimate_data_rate]
  · intro st h1 h2 h3
    simp [estimate_data_rate, h1, h2, h3]
  · simp [estimate_data_rate]
  · simp [estimate_data_rate, calculate_onboard_storage]

/-- C3 witness at the concrete UNKNOWN sensor. -/
theorem C3_data_rate_witness :
    estimate_data_rate "UNKNOWN" 10 = 0 ∧
    calculate_onboard_storage (estimate_data_rate "UNKNOWN" 10) 12 365 = 0 := by
  have h := C3_data_rate 10
  exact ⟨h.2.2.2.2.1, h.2.2.2.2.2⟩

/-- C4: the storage roll-up is dataRate * 12 * 365 with both constants
fixed, for every input; MSI at resolution 10 gives rate 1.0 MB/orbit and
storage 4380 MB. -/
theorem C4_storage (bodyR : ℚ) (ot st : String)
    (alt inc : Option ℚ) (res : ℚ) (sa se pc : Option ℚ) :
    (update_orbit bodyR ot alt inc st res sa se pc).requiredStorageMb =
      (update_orbit bodyR ot alt inc st res sa se pc).dataRateMbPerOrbit
        * 12 * 365 ∧
    (∀ rate downlink duration : ℚ,
      calculate_onboard_storage rate downlink duration =
        rate * downlink * duration) ∧
    (update_orbit bodyR ot alt inc "MSI" 10 sa se pc).dataRateMbPerOrbit = 1 ∧
    (update_orbit bodyR ot alt inc "MSI" 10 sa se pc).requiredStorageMb
      = 4380 := by
  refine ⟨rfl, fun _ _ _ => rfl, ?_, ?_⟩
  · simp [update_orbit, estimate_data_rate]
    norm_num
  · simp [update_orbit, estimate_data_rate, calculate_onboard_storage]
    norm_num

theorem linspace_length (a b : ℚ) (n : ℕ) : (linspace a b n).length = n := by
  unfold linspace
  split_ifs with h1 h2
  · simp [h1]
  · simp [h2]
  · rw [List.length_map, List.length_range]

theorem linspace_getElem (a b : ℚ) {n k : ℕ} (hn : 2 ≤ n) (hk : k < n) :
    (linspace a b n)[k]? = some (a + (b - a) * (k : ℚ) / ((n : ℚ) - 1)) := by
  have hn0 : n ≠ 0 := by omega
  have hn1 : n ≠ 1 := by omega
  simp only [linspace, if_neg hn0, if_neg hn1, List.getElem?_map]
  rw [List.getElem?_range hk]
  rfl

/-- C5 counterexample: np.linspace(0, 2*pi, 500) includes the endpoint, so
the 500 sampling parameters are NOT evenly spaced over the half-open
interval [0, 2*pi): the step is 2*pi/499 rather than 2*pi/500 (second
parameter is 2*pi/499, not 2*pi * 1/500), and the last parameter is
2*pi itself, repeating the true anomaly of the first point.  Times in
units of pi. -/
theorem C5_sampler_counterexample :
    (linspace 0 2 500).length = 500 ∧
    (linspace 0 2 500)[1]? = some (2 / 499) ∧
    (2 / 499 : ℚ) ≠ 2 * 1 / 500 ∧
    (linspace 0 2 500)[499]? = some 2 ∧
    ¬ (∀ t ∈ linspace 0 2 500, t < 2) := by
  have h499 : (linspace 0 2 500)[499]? = some 2 := by
    rw [linspace_getElem 0 2 (by norm_num) (by norm_num)]
    norm_num
  refine ⟨linspace_length 0 2 500, ?_, by norm_num, h499, ?_⟩
  · rw [linspace_getElem 0 2 (by norm_num) (by norm_num)]
    norm_num
  · intro h
    exact absurd (h 2 (List.getElem?_mem h499)) (by norm_num)

/-- C5 (amended): the sampler produces exactly 500 points; their
sampling parameters are evenly spaced with step 2*pi/499 over the CLOSED
interval [0, 2*pi] (first parameter 0, last parameter 2*pi, so the first
true anomaly is repeated at the end), and the k-th point is obtained by
propagating the orbit by the k-th parameter.  Times in units of pi. -/
theorem C5_sampler {α : Type} (propagate : ClassicalElements → ℚ → α)
    (orbit : ClassicalElements) (k : ℕ) (hk : k < 500) :
    (samplePositions propagate orbit 500).length = 500 ∧
    (linspace 0 2 500)[k]? = some (2 * (k : ℚ) / 499) ∧
    (samplePositions propagate orbit 500)[k]? =
      some (propagate orbit (2 * (k : ℚ) / 499)) ∧
    (linspace 0 2 500)[0]? = some 0 ∧
    (linspace 0 2 500)[499]? = some 2 := by
  have hget : (linspace 0 2 500)[k]? = some (2 * (k : ℚ) / 499) := by
    rw [linspace_getElem 0 2 (by norm_num) hk]
    norm_num
  refine ⟨?_, hget, ?_, ?_, ?_⟩
  · unfold samplePositions
    rw [List.length_map, linspace_length]
  · unfold samplePositions
    rw [List.getElem?_map, hget]
    rfl
  · rw [linspace_getElem 0 2 (by norm_num) (by norm_num)]
    norm_num
  · rw [linspace_getElem 0 2 (by norm_num) (by norm_num)]
    norm_num

/-- C5 witness: the sample list of a concrete orbit under a concrete
propagator has exactly 500 points. -/
theorem C5_sampler_witness :
    (samplePositions (fun _ t => t)
      (makeElements 6378 (resolveOrbit "LEO" none none)) 500).length = 500 :=
  (C5_sampler (fun _ t => t)
    (makeElements 6378 (resolveOrbit "LEO" none none)) 499 (by norm_num)).1

/-- C6: for every input, the revisit estimate equals
round(40075 / (swath * 14), 1) with the swath fixed at 100 km, which
evaluates to 28.6 days. -/
theorem C6_revisit (bodyR : ℚ) (ot st : String) (alt inc : Option ℚ)
    (res : ℚ) (sa se pc : Option ℚ) :
    (update_orbit bodyR ot alt inc st res sa se pc).revisitDays =
      round1 (40075 / (100 * 14)) ∧
    round1 (40075 / (100 * 14)) = 28.6 := by
  refine ⟨rfl, ?_⟩
  norm_num [round1, roundHalfEven]

/-- C7: every element set produced by the resolver has eccentricity 0,
RAAN 0, argument of perigee 0, true anomaly 0, and semi-major axis
bodyR + resolved altitude; the inclination is the resolved one. -/
theorem C7_elements (bodyR : ℚ) (ot st : String) (alt inc : Option ℚ)
    (res : ℚ) (sa se pc : Option ℚ) :
    (update_orbit bodyR ot alt inc st res sa se pc).elements.ecc = 0 ∧
    (update_orbit bodyR ot alt inc st res sa se pc).elements.raan = 0 ∧
    (update_orbit bodyR ot alt inc st res sa se pc).elements.argp = 0 ∧
    (update_orbit bodyR ot alt inc st res sa se pc).elements.nu = 0 ∧
    (update_orbit bodyR ot alt inc st res sa se pc).elements.a =
      bodyR + (resolveOrbit ot alt inc).altKm ∧
    (update_orbit bodyR ot alt inc st res sa se pc).elements.inc =
      (resolveOrbit ot alt inc).inclDeg :=
  ⟨rfl, rfl, rfl, rfl, rfl, rfl⟩

/-- C8 counterexample: at panel area 1.5, efficiency 28, consumption 50
the generated power is exactly 371.553 W, which is not within 0.1 of the
claimed approximation 371.4 W; to one decimal it is 371.6 W. -/
theorem C8_power_counterexample :
    (update_orbit 6378 "LEO" none none "MSI" 10
      (some 1.5) (some 28) (some 50)).generatedPowerW = 371553 / 1000 ∧
    ¬ |(371553 / 1000 : ℚ) - 371.4| ≤ 1 / 10 ∧
    round1 (371553 / 1000) = 371.6 := by
  refine ⟨?_, ?_, ?_⟩
  · show 1361 * pyOr (some 1.5) 1.5 * (pyOr (some 28) 28 / 100) * (1 - 0.35)
        = 371553 / 1000
    norm_num [pyOr]
  · norm_num [abs_le]
  · norm_num [round1, roundHalfEven]

/-- C8 (amended): for panel area 1.5, efficiency 28, consumption 50 the
generated power equals 1361 * 1.5 * 0.28 * 0.65 = 371.553 W exactly
(approximately 371.6 W, not 371.4 W), and the budget is sufficient. -/
theorem C8_power (bodyR : ℚ) (ot st : String) (alt inc : Option ℚ)
    (res : ℚ) :
    (update_orbit bodyR ot alt inc st res
      (some 1.5) (some 28) (some 50)).generatedPowerW =
        1361 * 1.5 * 0.28 * 0.65 ∧
    (1361 * 1.5 * 0.28 * 0.65 : ℚ) = 371553 / 1000 ∧
    round1 (371553 / 1000) = 371.6 ∧
    (update_orbit bodyR ot alt inc st res
      (some 1.5) (some 28) (some 50)).powerSufficient = true := by
  refine ⟨?_, by norm_num, ?_, ?_⟩
  · show 1361 * pyOr (some 1.5) 1.5 * (pyOr (some 28) 28 / 100) * (1 - 0.35)
        = 1361 * 1.5 * 0.28 * 0.65
    norm_num [pyOr]
  · norm_num [round1, roundHalfEven]
  · show decide (pyOr (some 50) 50 ≤
        1361 * pyOr (some 1.5) 1.5 * (pyOr (some 28) 28 / 100) * (1 - 0.35))
        = true
    rw [decide_eq_true_iff]
    norm_num [pyOr]

/-- C9: the revisit result is independent of every input: any two runs
with any inputs produce the same revisitDays, namely the constant 28.6
(the swath is the internal constant 100 km and no swath input exists). -/
theorem C9_revisit_independent
    (bodyR1 bodyR2 : ℚ) (ot1 ot2 st1 st2 : String)
    (alt1 alt2 inc1 inc2 : Option ℚ) (res1 res2 : ℚ)
    (sa1 sa2 se1 se2 pc1 pc2 : Option ℚ) :
    (update_orbit bodyR1 ot1 alt1 inc1 st1 res1 sa1 se1 pc1).revisitDays =
      (update_orbit bodyR2 ot2 alt2 inc2 st2 res2 sa2 se2 pc2).revisitDays ∧
    (update_orbit bodyR1 ot1 alt1 inc1 st1 res1 sa1 se1 pc1).revisitDays =
      28.6 := by
  refine ⟨rfl, ?_⟩
  show round1 (40075 / (100 * 14)) = 28.6
  norm_num [round1, roundHalfEven]

/-- C10: a supplied 0 is falsy under the Python or-idiom, so for CUSTOM
a 0 altitude or inclination is replaced by 500 / 90 (a 0-degree custom
inclination can never be resolved), and a 0 panel area, efficiency, or
consumption is replaced by its default, giving the same result as the
absent inputs. -/
theorem C10_falsy_zero (bodyR : ℚ) (ot st : String) (alt inc : Option ℚ)
    (res : ℚ) :
    resolveOrbit "CUSTOM" (some 0) (some 0) = resolveOrbit "CUSTOM" none none ∧
    resolveOrbit "CUSTOM" none none = ⟨500, 90⟩ ∧
    (∀ a i : Option ℚ, (resolveOrbit "CUSTOM" a i).inclDeg ≠ 0) ∧
    update_orbit bodyR ot alt inc st res (some 0) (some 0) (some 0) =
      update_orbit bodyR ot alt inc st res none none none ∧
    (update_orbit bodyR ot alt inc st res none none none).generatedPowerW =
      1361 * 1.5 * (28 / 100) * (1 - 0.35) ∧
    (update_orbit bodyR ot alt inc st res none none none).consumedPowerW =
      50 := by
  refine ⟨by decide, by decide, ?_, ?_, rfl, rfl⟩
  · intro a i
    show (pyOr i 90) ≠ 0
    cases i with
    | none => norm_num [pyOr]
    | some v =>
      simp only [pyOr]
      split_ifs with h
      · norm_num
      · exact h
  · simp [update_orbit, pyOr]

/-- C10 witness: a concrete nonzero custom inclination resolves to
itself and is nonzero. -/
theorem C10_falsy_zero_witness :
    (resolveOrbit "CUSTOM" (some 5) (some 7)).inclDeg ≠ 0 :=
  (C10_falsy_zero 6378 "LEO" "MSI" none none 10).2.2.1 (some 5) (some 7)

/-- C2 witness: with all three power inputs absent the consumed power is
the default 50 W. -/
theorem C2_power_estimator_witness :
    (update_orbit 6378 "LEO" none none "MSI" 10 none none none).consumedPowerW
      = 50 :=
  (C2_power_estimator 6378 "LEO" "MSI" none none 10 none none none).2.1
